import Mathlib

/-!
Verification of the DermaSnap analysis-orchestration and persistence core.

Shallow embedding of:
- `backend/ml_service.py` (MedGemmaService: lazy load, narrative analysis,
  `_parse_medgemma_response` regex extraction),
- `backend/yolo_service.py` (YOLOService: lazy load with pretrained fallback,
  lesion detection),
- `backend/server.py` (`_resolve_storage_type`, `create_scan` retry loop with
  TLS-classification, image-artifact persistence, scan CRUD routes).

External effects (model inference, base64 round-trips, MongoDB, the clock and
random filename suffixes) enter as explicit environment parameters; everything
that the Python code itself computes is translated directly.
-/

/-! ### Generic text helpers

These model the pieces of Python semantics the services rely on:
substring containment (`"severe" in text`), and the exact backtracking
behaviour of the three `re.search` patterns used by
`MedGemmaService._parse_medgemma_response` (all inputs involved are ASCII and
newline-free, so `.` matches every character).
-/

/-- ASCII lowercasing of one character, as Python `str.lower()` acts on the
ASCII inputs these services handle. -/
def lowerChar (c : Char) : Char :=
  if 'A' ≤ c ∧ c ≤ 'Z' then Char.ofNat (c.toNat + 32) else c

/-- Python `text.lower()` on a character list. -/
def lowerList (s : List Char) : List Char := s.map lowerChar

/-- Python `str.strip()`: drop leading and trailing whitespace. -/
def stripChars (s : List Char) : List Char :=
  ((s.dropWhile fun c => c.isWhitespace).reverse.dropWhile fun c => c.isWhitespace).reverse

/-- Match the literal `lit` at the head of `s`; on success return the rest. -/
def dropLit : List Char → List Char → Option (List Char)
  | [], rest => some rest
  | _ :: _, [] => none
  | l :: ls, c :: cs => if l = c then dropLit ls cs else none

/-- Python substring containment `lit in s`. -/
def containsLit (lit : List Char) : List Char → Bool
  | [] => (dropLit lit []).isSome
  | s@(_ :: cs) => (dropLit lit s).isSome || containsLit lit cs

/-- Substring containment on `String`, i.e. Python `needle in hay`. -/
def containsStr (needle hay : String) : Bool :=
  containsLit needle.data hay.data

/-- Greedy maximal run of ASCII digits (`\d+`/`\d*`): returns (run, rest). -/
def takeDigits : List Char → List Char × List Char
  | [] => ([], [])
  | c :: cs =>
    if c.isDigit then
      let p := takeDigits cs
      (c :: p.1, p.2)
    else ([], c :: cs)

/-- Value of a digit run, i.e. Python `int(group)`. -/
def digitsToNat (ds : List Char) : Nat :=
  ds.foldl (fun acc c => 10 * acc + (c.toNat - 48)) 0

/-- Backtracking of a greedy `(\d+)` followed by `.*?lit`: try the capture
`run.take k` (longest first, down to one digit); the rest of the run is given
back to the lazy `.*?`, which then only needs `lit` to occur somewhere in the
remainder. -/
def shrinkTry (lit run rest : List Char) : Nat → Option (List Char)
  | 0 => none
  | k + 1 =>
    if containsLit lit (run.drop (k + 1) ++ rest) then some (run.take (k + 1))
    else shrinkTry lit run rest k

/-- `re.search` for a pattern of the shape `(\d+).*?lit` starting anywhere:
scan start positions left to right; at a digit, `\d+` matches greedily and
backtracks against the lazy tail. Returns the captured integer. -/
def searchNumThen (lit : List Char) : List Char → Option Nat
  | [] => none
  | c :: cs =>
    let attempt : Option (List Char) :=
      if c.isDigit then
        let p := takeDigits (c :: cs)
        shrinkTry lit p.1 p.2 p.1.length
      else none
    match attempt with
    | some run => some (digitsToNat run)
    | none => searchNumThen lit cs

/-- `re.search(r'total.*?(\d+).*?lesion', text)`: leftmost occurrence of the
literal `total` after which a digit run followed (lazily) by `lesion` exists;
inner backtracking as in `searchNumThen`. -/
def searchTotalNumLesion : List Char → Option Nat
  | [] => none
  | s@(_ :: cs) =>
    match dropLit "total".data s with
    | some rest =>
      match searchNumThen "lesion".data rest with
      | some n => some n
      | none => searchTotalNumLesion cs
    | none => searchTotalNumLesion cs

/-- One anchored attempt of `(\d+\.?\d*)\s*%`: greedy integer digits, optional
dot, greedy fraction digits, then whitespace and `%`. Backtracking cannot
change the outcome here (a digit or whitespace character is never `%`, and
declining the dot leaves the dot itself in the way), so each greedy step is
forced; returns (integer digits, fraction digits). -/
def matchPercentAt (s : List Char) : Option (List Char × List Char) :=
  let p := takeDigits s
  if p.1.isEmpty then none
  else
    let afterDot :=
      match p.2 with
      | '.' :: r => r
      | r => r
    let q := takeDigits afterDot
    match q.2.dropWhile (fun ch => ch.isWhitespace) with
    | '%' :: _ => some (p.1, q.1)
    | _ => none

/-- Python `float(group(1))` for a capture `⟨intPart, fracPart⟩`. -/
def percentValue (ip fp : List Char) : ℚ :=
  (digitsToNat ip : ℚ) + (digitsToNat fp : ℚ) / ((10 : ℚ) ^ fp.length)

/-- `re.search(r'(\d+\.?\d*)\s*%', text)`: leftmost position where
`matchPercentAt` succeeds. -/
def searchPercent : List Char → Option ℚ
  | [] => none
  | s@(_ :: cs) =>
    match matchPercentAt s with
    | some pq => some (percentValue pq.1 pq.2)
    | none => searchPercent cs

/-! ### NarrativeParser: `MedGemmaService._parse_medgemma_response` -/

/-- Severity extraction shared by the three metric groups (ml_service.py
lines 264-269, 282-287, 299-305): case-insensitive containment checks on the
already-lowercased text, `severe` before `moderate`, default `Mild`. -/
def extractSeverity (textLower : List Char) : String :=
  if containsLit "severe".data textLower then "Severe"
  else if containsLit "moderate".data textLower then "Moderate"
  else "Mild"

/-- The `acne` entry of the parsed mapping. -/
structure AcneData where
  totalCount : Option Nat
  severity : String
deriving DecidableEq

/-- The `pigmentation` entry of the parsed mapping. -/
structure PigmentationData where
  pigmentedPercent : Option ℚ
  severity : String
deriving DecidableEq

/-- The `wrinkles` entry of the parsed mapping. -/
structure WrinklesData where
  count : Option Nat
  severity : String
deriving DecidableEq

/-- The dictionary returned by `_parse_medgemma_response`: a key is present
exactly when the corresponding branch fired. -/
structure ParsedResp where
  acne : Option AcneData
  pigmentation : Option PigmentationData
  wrinkles : Option WrinklesData
deriving DecidableEq

/-- `MedGemmaService._parse_medgemma_response(text, analysis_type)`
(ml_service.py lines 244-312). The text is lowercased once; the three
conditional blocks run in sequence inside one `try`. `import re` (line 258)
executes only inside the acne/full block, which makes `re` a function-local
name throughout the function: when the pigmentation or wrinkles block runs
while the acne/full block has not run (`analysis_type` equal to
`pigmentation` or `wrinkles` alone), its first `re.search` (lines 277/295)
raises `UnboundLocalError` BEFORE anything is stored under that key; the
blanket `except` of line 309 swallows the exception and the dict built so
far is returned. `reBound` below is whether `import re` has executed. -/
def _parse_medgemma_response (text analysisType : String) : ParsedResp :=
  let tl := lowerList text.data
  let reBound := analysisType = "acne" ∨ analysisType = "full"
  let p1 : ParsedResp :=
    { acne :=
        if analysisType = "acne" ∨ analysisType = "full" then
          some { totalCount := searchTotalNumLesion tl, severity := extractSeverity tl }
        else none
      pigmentation := none
      wrinkles := none }
  if (analysisType = "pigmentation" ∨ analysisType = "full") ∧ ¬reBound then p1
  else
    let p2 : ParsedResp :=
      { p1 with
        pigmentation :=
          if analysisType = "pigmentation" ∨ analysisType = "full" then
            some { pigmentedPercent := searchPercent tl, severity := extractSeverity tl }
          else none }
    if (analysisType = "wrinkles" ∨ analysisType = "full") ∧ ¬reBound then p2
    else
      { p2 with
        wrinkles :=
          if analysisType = "wrinkles" ∨ analysisType = "full" then
            some { count := searchNumThen "wrinkle".data tl, severity := extractSeverity tl }
          else none }

/-! ### Claims C5 and C6: NarrativeParser behaviour -/

/-- Claim C5, counterexample: on the spec's sample sentence the wrinkle regex
`(\d+).*?wrinkle` captures the FIRST integer of the whole text that is later
followed by `wrinkle` — that is 15 (from `Total 15 lesions`), not the 8 the
claim states. -/
theorem parse_full_sample_wrinkles_cex :
    (_parse_medgemma_response
        "Total 15 lesions detected, 8.5% pigmented area, 8 wrinkles found, severity Moderate"
        "full").wrinkles ≠ some { count := some 8, severity := "Moderate" } := by
  decide

/-- Claim C5, amended: `_parse_medgemma_response` on the sample sentence with
category `full` yields acne `{totalCount 15, Moderate}`, pigmentation
`{pigmentedPercent 8.5, Moderate}` and wrinkles `{count 15, Moderate}` — the
wrinkle count is 15, not 8, because the regex search starts from the leftmost
digit run of the text. -/
theorem parse_full_sample_eval :
    _parse_medgemma_response
        "Total 15 lesions detected, 8.5% pigmented area, 8 wrinkles found, severity Moderate"
        "full" =
      { acne := some { totalCount := some 15, severity := "Moderate" }
        pigmentation := some { pigmentedPercent := some (17 / 2 : ℚ), severity := "Moderate" }
        wrinkles := some { count := some 15, severity := "Moderate" } } := by
  have h2 : searchPercent (lowerList
      "Total 15 lesions detected, 8.5% pigmented area, 8 wrinkles found, severity Moderate".data) =
      some (percentValue ['8'] ['5']) := rfl
  have h5 : percentValue ['8'] ['5'] = (17 / 2 : ℚ) := by
    show ((8 : ℕ) : ℚ) + ((5 : ℕ) : ℚ) / (10 : ℚ) ^ (1 : ℕ) = 17 / 2
    norm_num
  have h1 : searchTotalNumLesion (lowerList
      "Total 15 lesions detected, 8.5% pigmented area, 8 wrinkles found, severity Moderate".data) =
      some 15 := by decide
  have h3 : searchNumThen "wrinkle".data (lowerList
      "Total 15 lesions detected, 8.5% pigmented area, 8 wrinkles found, severity Moderate".data) =
      some 15 := by decide
  have h4 : extractSeverity (lowerList
      "Total 15 lesions detected, 8.5% pigmented area, 8 wrinkles found, severity Moderate".data) =
      "Moderate" := by decide
  simp [_parse_medgemma_response, h1, h2, h3, h4, h5]

/-- Case analysis of the parser over the category label: the standalone
`pigmentation` and `wrinkles` categories crash on the unbound local `re` and
return the empty mapping. -/
lemma parse_medgemma_cases (text analysisType : String) :
    _parse_medgemma_response text analysisType =
      (if analysisType = "acne" then
        { acne := some { totalCount := searchTotalNumLesion (lowerList text.data)
                         severity := extractSeverity (lowerList text.data) }
          pigmentation := none, wrinkles := none }
      else if analysisType = "full" then
        { acne := some { totalCount := searchTotalNumLesion (lowerList text.data)
                         severity := extractSeverity (lowerList text.data) }
          pigmentation := some { pigmentedPercent := searchPercent (lowerList text.data)
                                 severity := extractSeverity (lowerList text.data) }
          wrinkles := some { count := searchNumThen "wrinkle".data (lowerList text.data)
                             severity := extractSeverity (lowerList text.data) } }
      else { acne := none, pigmentation := none, wrinkles := none }) := by
  by_cases h1 : analysisType = "acne"
  · subst h1; simp [_parse_medgemma_response]
  · by_cases h2 : analysisType = "full"
    · subst h2; simp [_parse_medgemma_response]
    · by_cases h3 : analysisType = "pigmentation"
      · subst h3; simp [_parse_medgemma_response]
      · by_cases h4 : analysisType = "wrinkles"
        · subst h4; simp [_parse_medgemma_response]
        · simp [_parse_medgemma_response, h1, h2, h3, h4]

/-- Claim C6, counterexample: for the standalone categories `pigmentation`
and `wrinkles` the parser extracts NO severity at all, even from a text
containing `severe`: `import re` runs only inside the acne/full block, so
these blocks raise `UnboundLocalError` at their first `re.search`, the
blanket `except` swallows it, and the still-empty mapping is returned —
refuting the claim's `for every category` severity rule. -/
theorem severity_not_extracted_cex :
    _parse_medgemma_response "Severe hyperpigmentation with dark spots" "pigmentation" =
      { acne := none, pigmentation := none, wrinkles := none } ∧
    _parse_medgemma_response "Severe deep wrinkles" "wrinkles" =
      { acne := none, pigmentation := none, wrinkles := none } := by
  decide

/-- Claim C6, amended: wherever the parser extracts a severity — i.e. in
every populated metric group, which arise only on the `acne` and `full`
paths — it equals `extractSeverity` of the lowercased text, which follows
the fixed priority Severe over Moderate over Mild independently of the
occurrence order in the text; but the standalone categories `pigmentation`
and `wrinkles` return an empty mapping with no severity (their blocks crash
on the function-local `re` that was never imported). -/
theorem severity_priority_amended (text analysisType : String) :
    (∀ a, (_parse_medgemma_response text analysisType).acne = some a →
      a.severity = extractSeverity (lowerList text.data)) ∧
    (∀ p, (_parse_medgemma_response text analysisType).pigmentation = some p →
      p.severity = extractSeverity (lowerList text.data)) ∧
    (∀ w, (_parse_medgemma_response text analysisType).wrinkles = some w →
      w.severity = extractSeverity (lowerList text.data)) ∧
    (analysisType = "pigmentation" →
      _parse_medgemma_response text analysisType =
        { acne := none, pigmentation := none, wrinkles := none }) ∧
    (analysisType = "wrinkles" →
      _parse_medgemma_response text analysisType =
        { acne := none, pigmentation := none, wrinkles := none }) ∧
    (containsLit "severe".data (lowerList text.data) = true →
      extractSeverity (lowerList text.data) = "Severe") ∧
    (containsLit "severe".data (lowerList text.data) = false →
      containsLit "moderate".data (lowerList text.data) = true →
      extractSeverity (lowerList text.data) = "Moderate") ∧
    (containsLit "severe".data (lowerList text.data) = false →
      containsLit "moderate".data (lowerList text.data) = false →
      extractSeverity (lowerList text.data) = "Mild") := by
  refine ⟨?_, ?_, ?_, ?_, ?_, ?_, ?_, ?_⟩
  · intro a ha
    rw [parse_medgemma_cases] at ha
    by_cases h1 : analysisType = "acne"
    · simp only [h1, if_true, if_pos rfl] at ha
      simp only [Option.some.injEq] at ha
      subst ha; rfl
    · by_cases h2 : analysisType = "full"
      · simp [h1, h2] at ha
        subst ha; rfl
      · simp [h1, h2] at ha
  · intro p hp
    rw [parse_medgemma_cases] at hp
    by_cases h1 : analysisType = "acne"
    · simp [h1] at hp
    · by_cases h2 : analysisType = "full"
      · simp [h1, h2] at hp
        subst hp; rfl
      · simp [h1, h2] at hp
  · intro w hw
    rw [parse_medgemma_cases] at hw
    by_cases h1 : analysisType = "acne"
    · simp [h1] at hw
    · by_cases h2 : analysisType = "full"
      · simp [h1, h2] at hw
        subst hw; rfl
      · simp [h1, h2] at hw
  · intro h
    rw [parse_medgemma_cases]
    simp [h]
  · intro h
    rw [parse_medgemma_cases]
    simp [h]
  · intro h1; simp [extractSeverity, h1]
  · intro h1 h2; simp [extractSeverity, h1, h2]
  · intro h1 h2; simp [extractSeverity, h1, h2]

/-- Claim C6 witness: a text with `mild` before `moderate` and no `severe`
still resolves to Moderate on the `full` path, while the same text under the
standalone `pigmentation` category yields the empty mapping. -/
theorem severity_priority_amended_witness :
    extractSeverity (lowerList "Overall mild with moderate patches".data) = "Moderate" ∧
    _parse_medgemma_response "Overall mild with moderate patches" "pigmentation" =
      { acne := none, pigmentation := none, wrinkles := none } :=
  ⟨(severity_priority_amended "Overall mild with moderate patches" "full").2.2.2.2.2.2.1
      (by decide) (by decide),
   (severity_priority_amended "Overall mild with moderate patches" "pigmentation").2.2.2.1
      rfl⟩

/-! ### NarrativeAnalyzer: `MedGemmaService` lifecycle and inference

`MedGemmaService` keeps one mutable flag that matters for control flow:
`self.loaded` (the `model`/`processor` fields are only ever set together with
it). External effects — whether `from_pretrained` succeeds, whether the image
payload decodes, and what text the model generates for a given prompt — are
supplied by an environment record.
-/

/-- Mutable state of the MedGemma singleton. -/
structure MedState where
  loaded : Bool
deriving DecidableEq

/-- Which entry of the `prompts` dictionary is selected. -/
inductive PromptKey
  | acne
  | pigmentation
  | wrinkles
  | full
deriving DecidableEq

/-- Per-call external world of `analyze_skin_image`. -/
structure MedEnv where
  loadOk : Bool
  decodeOk : Bool
  generated : PromptKey → String

/-- `prompts.get(analysis_type, prompts["full"])` (ml_service.py line 177):
the dictionary has exactly the four keys; any other label falls back to the
`full` prompt. The prompt texts themselves are opaque here. -/
def promptsGet (analysisType : String) : PromptKey :=
  if analysisType = "acne" then .acne
  else if analysisType = "pigmentation" then .pigmentation
  else if analysisType = "wrinkles" then .wrinkles
  else .full

/-- The result dictionary of `analyze_skin_image`. -/
structure MLResult where
  success : Bool
  analysis : Option String
  parsed : Option ParsedResp
  model : Option String
  confidence : Option String
  method : Option String
  error : Option String
  fallback : Bool
deriving DecidableEq

/-- `MedGemmaService.load_model` (ml_service.py lines 34-91): early return if
already loaded; otherwise the heavyweight load either succeeds (setting
`loaded`) or raises, leaving the state unchanged. Returns (state, raised). -/
def MedGemma_load_model (s : MedState) (loadOk : Bool) : MedState × Bool :=
  if s.loaded then (s, false)
  else if loadOk then ({ loaded := true }, false)
  else (s, true)

/-- The `try` body of `analyze_skin_image` (ml_service.py lines 123-242):
decode failure is caught and mapped to a fallback error; otherwise the model
generates from the selected prompt and the parsed envelope is returned. -/
def MedGemma_try_body (env : MedEnv) (analysisType : String) : MLResult :=
  if env.decodeOk then
    let decoded := env.generated (promptsGet analysisType)
    { success := true
      analysis := some decoded
      parsed := some (_parse_medgemma_response decoded analysisType)
      model := some "medgemma-4b-it"
      confidence := some "high"
      method := some "ml"
      error := none
      fallback := false }
  else
    { success := false, analysis := none, parsed := none, model := none
      confidence := none, method := none
      error := some "invalid image payload", fallback := true }

/-- `MedGemmaService.analyze_skin_image` (ml_service.py lines 97-242).
Returns (new state, whether `load_model` was invoked on this call, result).
When the service is not loaded it first calls `load_model`; a raise there is
caught and answered with the `MedGemma model not available` fallback error. -/
def analyze_skin_image (s : MedState) (env : MedEnv) (analysisType : String) :
    MedState × Bool × MLResult :=
  if s.loaded then (s, false, MedGemma_try_body env analysisType)
  else
    let r := MedGemma_load_model s env.loadOk
    if r.2 then
      (r.1, true,
        { success := false, analysis := none, parsed := none, model := none
          confidence := none, method := none
          error := some "MedGemma model not available", fallback := true })
    else (r.1, true, MedGemma_try_body env analysisType)

/-! ### ObjectDetector: `YOLOService` lifecycle and detection -/

/-- Mutable state of the YOLO singleton: the loaded weights (path given to the
`YOLO` constructor), the stored model name, and the loaded flag. -/
structure YoloState where
  model : Option String
  model_name : Option String
  loaded : Bool
deriving DecidableEq

/-- External world of `YOLOService.load_model`: whether `ultralytics` imports,
which weight files exist on disk, and whether the `YOLO` constructor succeeds
for a given path. -/
structure YoloLoadEnv where
  ultralyticsAvailable : Bool
  fileExists : String → Bool
  yoloInitOk : String → Bool

/-- The `model_paths` dictionary (yolo_service.py lines 24-28). -/
def model_paths (name : String) : Option String :=
  if name = "yolov8-nano" then some "models/yolov8n-acne.pt"
  else if name = "yolov11-nano" then some "models/yolov11n-acne.pt"
  else if name = "yolov8-tflite" then some "models/yolov8n-acne.tflite"
  else none

/-- `YOLOService.load_model` (yolo_service.py lines 30-61). Returns
(new state, returned boolean). A missing weight file falls back to the
pretrained `yolov8n.pt` checkpoint; `self.model_name` is then still set to the
REQUESTED name. An `ImportError` returns `False` without touching the state; a
`YOLO(...)` failure is caught and sets `loaded := false`. -/
def YOLO_load_model (env : YoloLoadEnv) (s : YoloState) (model_name : String) :
    YoloState × Bool :=
  if env.ultralyticsAvailable then
    let path0 := (model_paths model_name).getD "models/yolov8n-acne.pt"
    let path := if env.fileExists path0 then path0 else "yolov8n.pt"
    if env.yoloInitOk path then
      ({ model := some path, model_name := some model_name, loaded := true }, true)
    else ({ s with loaded := false }, false)
  else (s, false)

/-- `YOLOService.is_available` (yolo_service.py lines 63-65). -/
def is_available (s : YoloState) : Bool :=
  s.loaded && s.model.isSome

/-- One raw detection as produced by the underlying model, already filtered by
the confidence threshold inside the model call (`conf=confidence_threshold`):
xyxy corner coordinates, confidence, class id. -/
structure RawBox where
  x1 : ℚ
  y1 : ℚ
  x2 : ℚ
  y2 : ℚ
  conf : ℚ
  cls : Nat
deriving DecidableEq

/-- A box of the response dictionary (center format). -/
structure DetBox where
  x : ℚ
  y : ℚ
  width : ℚ
  height : ℚ
  confidence : ℚ
  classId : Nat
  className : String
deriving DecidableEq

/-- `YOLOService._map_class_id` (yolo_service.py lines 158-172): fixed lookup
table, unknown ids default to `inflammatory`. -/
def _map_class_id (class_id : Nat) : String :=
  if class_id = 0 then "comedone"
  else if class_id = 1 then "papule"
  else if class_id = 2 then "pustule"
  else if class_id = 3 then "nodule"
  else if class_id = 4 then "inflammatory"
  else if class_id = 5 then "non-inflammatory"
  else "inflammatory"

/-- Conversion of one result box to center format (yolo_service.py
lines 119-141). -/
def convertBox (b : RawBox) : DetBox :=
  { x := (b.x1 + b.x2) / 2
    y := (b.y1 + b.y2) / 2
    width := b.x2 - b.x1
    height := b.y2 - b.y1
    confidence := b.conf
    classId := b.cls
    className := _map_class_id b.cls }

/-- External world of `YOLOService.detect_lesions`: the load environment,
whether the payload decodes into an image, and the raw model output. -/
structure YoloDetectEnv where
  loadEnv : YoloLoadEnv
  decodeOk : Bool
  rawBoxes : List RawBox

/-- The result dictionary of `detect_lesions`. -/
structure DetectResult where
  success : Bool
  boxes : List DetBox
  model : Option String
  count : Option Nat
  error : Option String
deriving DecidableEq

/-- The `try` body of `detect_lesions` (yolo_service.py lines 95-156). -/
def YOLO_try_body (env : YoloDetectEnv) (s : YoloState) : DetectResult :=
  if env.decodeOk then
    let boxes := env.rawBoxes.map convertBox
    { success := true
      boxes := boxes
      model := some (s.model_name.getD "yolov8-nano")
      count := some boxes.length
      error := none }
  else
    { success := false, boxes := [], model := none, count := none
      error := some "invalid image payload" }

/-- `YOLOService.detect_lesions` (yolo_service.py lines 67-156). Returns
(new state, whether `load_model` was invoked on this call, result). When the
model is unavailable the method first retries `load_model()`; only if that
returns `False` does it answer the `YOLO model not available` error. -/
def detect_lesions (env : YoloDetectEnv) (s : YoloState) :
    YoloState × Bool × DetectResult :=
  if is_available s then (s, false, YOLO_try_body env s)
  else
    let r := YOLO_load_model env.loadEnv s "yolov8-nano"
    if r.2 then (r.1, true, YOLO_try_body env r.1)
    else
      (r.1, true,
        { success := false, boxes := [], model := none, count := none
          error := some "YOLO model not available. Install ultralytics: pip install ultralytics" })

/-! ### Claims C1, C7, C10: backend lifecycle behaviour -/

/-- Claim C1, counterexample: after a failed load, a second `infer` call on
either backend variant re-enters the load routine (second component `true`),
so the failure is not sticky. -/
theorem failed_load_reentered_cex :
    (let env : MedEnv := { loadOk := false, decodeOk := true, generated := fun _ => "" }
     let first := analyze_skin_image { loaded := false } env "acne"
     first.2.2.fallback = true ∧ (analyze_skin_image first.1 env "acne").2.1 = true) ∧
    (let yenv : YoloDetectEnv :=
       { loadEnv :=
           { ultralyticsAvailable := false, fileExists := fun _ => false
             yoloInitOk := fun _ => false }
         decodeOk := true, rawBoxes := [] }
     let yfirst := detect_lesions yenv { model := none, model_name := none, loaded := false }
     yfirst.2.2.success = false ∧ (detect_lesions yenv yfirst.1).2.1 = true) := by
  decide

/-- Claim C1, amended: a failed load is NOT sticky. Whenever the backend is
unloaded, an `infer` call re-enters the load routine; if that per-request load
attempt fails again, the call returns the fallback-signaling error (and for
the narrative variant leaves the state unloaded). -/
theorem failed_load_not_sticky (s : MedState) (env : MedEnv) (t : String)
    (ys : YoloState) (yenv : YoloDetectEnv) :
    (s.loaded = false →
      (analyze_skin_image s env t).2.1 = true ∧
      (env.loadOk = false →
        (analyze_skin_image s env t).1 = s ∧
        (analyze_skin_image s env t).2.2 =
          { success := false, analysis := none, parsed := none, model := none
            confidence := none, method := none
            error := some "MedGemma model not available", fallback := true })) ∧
    (is_available ys = false →
      (detect_lesions yenv ys).2.1 = true ∧
      ((YOLO_load_model yenv.loadEnv ys "yolov8-nano").2 = false →
        (detect_lesions yenv ys).2.2 =
          { success := false, boxes := [], model := none, count := none
            error := some
              "YOLO model not available. Install ultralytics: pip install ultralytics" })) := by
  constructor
  · intro hs
    by_cases hl : env.loadOk <;>
      simp [analyze_skin_image, MedGemma_load_model, hs, hl]
  · intro hy
    by_cases hl : (YOLO_load_model yenv.loadEnv ys "yolov8-nano").2 <;>
      simp [detect_lesions, hy, hl]

/-- Claim C1 witness: concrete unloaded states with failing load
environments, for both variants. -/
theorem failed_load_not_sticky_witness :
    (analyze_skin_image { loaded := false }
      { loadOk := false, decodeOk := true, generated := fun _ => "" } "acne").2.1 = true ∧
    (detect_lesions
      { loadEnv :=
          { ultralyticsAvailable := false, fileExists := fun _ => false
            yoloInitOk := fun _ => false }
        decodeOk := true, rawBoxes := [] }
      { model := none, model_name := none, loaded := false }).2.1 = true :=
  ⟨((failed_load_not_sticky { loaded := false }
      { loadOk := false, decodeOk := true, generated := fun _ => "" } "acne"
      { model := none, model_name := none, loaded := false }
      { loadEnv :=
          { ultralyticsAvailable := false, fileExists := fun _ => false
            yoloInitOk := fun _ => false }
        decodeOk := true, rawBoxes := [] }).1 rfl).1,
   ((failed_load_not_sticky { loaded := false }
      { loadOk := false, decodeOk := true, generated := fun _ => "" } "acne"
      { model := none, model_name := none, loaded := false }
      { loadEnv :=
          { ultralyticsAvailable := false, fileExists := fun _ => false
            yoloInitOk := fun _ => false }
        decodeOk := true, rawBoxes := [] }).2 (by decide)).1⟩

/-- Claim C7, counterexample: with the named weight file missing,
`load_model("yolov11-nano")` falls back to the pretrained `yolov8n.pt`
checkpoint without raising — but a subsequent `detect_lesions` call reports
model `yolov11-nano`, EQUAL to the requested name, so the fallback is not
observable through the reported model name. -/
theorem fallback_model_name_cex :
    (let env : YoloLoadEnv :=
       { ultralyticsAvailable := true, fileExists := fun _ => false
         yoloInitOk := fun _ => true }
     let r := YOLO_load_model env { model := none, model_name := none, loaded := false }
       "yolov11-nano"
     r.1.model = some "yolov8n.pt" ∧ r.2 = true ∧
     (detect_lesions { loadEnv := env, decodeOk := true, rawBoxes := [] } r.1).2.2.model =
       some "yolov11-nano") := by
  decide

/-- Claim C7, amended: for every requested model name whose weight artifact is
missing, `load_model` falls back to the generic pretrained checkpoint
`yolov8n.pt` without raising — but `self.model_name` is set to the REQUESTED
name, so subsequent `detect_lesions` results report the requested name itself:
the fallback is observable only in the loaded weights path, not in the
reported model name. -/
theorem missing_weights_fallback (name : String) (env : YoloLoadEnv) (s : YoloState)
    (h1 : env.ultralyticsAvailable = true)
    (h2 : env.fileExists ((model_paths name).getD "models/yolov8n-acne.pt") = false)
    (h3 : env.yoloInitOk "yolov8n.pt" = true) :
    YOLO_load_model env s name =
      ({ model := some "yolov8n.pt", model_name := some name, loaded := true }, true) ∧
    ∀ denv : YoloDetectEnv, denv.decodeOk = true →
      (detect_lesions denv (YOLO_load_model env s name).1).2.2.model = some name := by
  have hload : YOLO_load_model env s name =
      ({ model := some "yolov8n.pt", model_name := some name, loaded := true }, true) := by
    simp [YOLO_load_model, h1, h2, h3]
  refine ⟨hload, ?_⟩
  intro denv hd
  rw [hload]
  simp [detect_lesions, is_available, YOLO_try_body, hd]

/-- Claim C7 witness: concrete environment with every named weight file
missing and a working pretrained checkpoint. -/
theorem missing_weights_fallback_witness :
    YOLO_load_model
      { ultralyticsAvailable := true, fileExists := fun _ => false
        yoloInitOk := fun _ => true }
      { model := none, model_name := none, loaded := false } "yolov8-nano" =
      ({ model := some "yolov8n.pt", model_name := some "yolov8-nano", loaded := true },
        true) :=
  (missing_weights_fallback "yolov8-nano"
    { ultralyticsAvailable := true, fileExists := fun _ => false, yoloInitOk := fun _ => true }
    { model := none, model_name := none, loaded := false } rfl rfl rfl).1

/-- Claim C10: for every `analysis_type` outside the recognized set, the
prompt lookup falls back to the `full` prompt, yet the parsed mapping in a
successful envelope is empty (no acne, pigmentation, or wrinkles key) while
`success` is still `true`. -/
theorem unknown_analysis_type_spec (analysisType : String)
    (h1 : analysisType ≠ "acne") (h2 : analysisType ≠ "pigmentation")
    (h3 : analysisType ≠ "wrinkles") (h4 : analysisType ≠ "full") :
    promptsGet analysisType = PromptKey.full ∧
    ∀ (s : MedState) (env : MedEnv), s.loaded = true → env.decodeOk = true →
      (analyze_skin_image s env analysisType).2.2.success = true ∧
      (analyze_skin_image s env analysisType).2.2.parsed =
        some { acne := none, pigmentation := none, wrinkles := none } := by
  constructor
  · simp [promptsGet, h1, h2, h3]
  · intro s env hs hd
    simp [analyze_skin_image, hs, MedGemma_try_body, hd, _parse_medgemma_response,
      h1, h2, h3, h4]

/-- Claim C10 witness: the unrecognized label `combined` on a loaded service
with a decodable payload. -/
theorem unknown_analysis_type_witness :
    (analyze_skin_image { loaded := true }
      { loadOk := true, decodeOk := true, generated := fun _ => "no metrics here" }
      "combined").2.2.parsed =
      some { acne := none, pigmentation := none, wrinkles := none } :=
  ((unknown_analysis_type_spec "combined" (by decide) (by decide) (by decide) (by decide)).2
    { loaded := true }
    { loadOk := true, decodeOk := true, generated := fun _ => "no metrics here" }
    rfl rfl).2

/-! ### ScanRepository / routes: `server.py`

The Mongo database and upload directory are modeled as an explicit `Store`;
the outcome of each `insert_one` round-trip (Mongo is external) is supplied by
an environment function `Nat → InsertOutcome` indexed by attempt number, and
the generated `timestamp_uuid` filename stem for each attempt by
`Nat → String`. Exceptions are represented by their `str(e)` rendering, which
is all `create_scan` inspects (a starlette `HTTPException` renders as
`"{status_code}: {detail}"`).
-/

/-- `_resolve_storage_type` (server.py lines 152-166): trim, lowercase;
`full` raises a 400 (returned here as the exception detail), `pigmentation`
renames to `pimple`, the three storage categories pass through, anything else
defaults to `acne`. -/
def _resolve_storage_type (analysisType : String) : Except String String :=
  let normalized := stripChars (lowerList analysisType.data)
  if normalized = "full".data then .error "Full scan is no longer supported"
  else if normalized = "pigmentation".data then .ok "pimple"
  else if normalized = "acne".data ∨ normalized = "wrinkles".data ∨ normalized = "pimple".data
    then .ok (String.mk normalized)
  else .ok "acne"

/-- `_get_image_extension` (server.py lines 175-180): data-URL sniffing. -/
def _get_image_extension (imageBase64 : String) : String :=
  if (dropLit "data:image/png".data imageBase64.data).isSome then ".png"
  else if (dropLit "data:image/webp".data imageBase64.data).isSome then ".webp"
  else ".jpg"

/-- The base64 payload after the data-URL header, i.e.
`image_base64.split(",", 1)[1]` when a comma is present (server.py
lines 169-172); actual base64 decoding is opaque. -/
def afterFirstComma : List Char → Option (List Char)
  | [] => none
  | c :: cs => if c = ',' then some cs else afterFirstComma cs

/-- `_decode_base64_image` modulo the opaque base64-to-bytes step. -/
def _strip_data_url (s : String) : String :=
  String.mk ((afterFirstComma s.data).getD s.data)

/-- A value of a scan dictionary entry. `blob` holds an optional analysis
block (its internals never matter to the persistence layer). -/
inductive FieldVal
  | str (s : String)
  | tone (r g b : Int)
  | blob (o : Option String)
deriving DecidableEq

/-- A Python dict as an association list with unique keys. -/
abbrev ScanDict := List (String × FieldVal)

/-- Dict assignment `d[k] = v`: update in place, or append a new key. -/
def setField : ScanDict → String → FieldVal → ScanDict
  | [], k, v => [(k, v)]
  | (k0, v0) :: rest, k, v =>
    if k0 = k then (k, v) :: rest else (k0, v0) :: setField rest k v

/-- Dict removal `d.pop(k, None)`. -/
def popField : ScanDict → String → ScanDict
  | [], _ => []
  | (k0, v0) :: rest, k =>
    if k0 = k then popField rest k else (k0, v0) :: popField rest k

/-- Dict read `d.get(k)`. -/
def lookupField : ScanDict → String → Option FieldVal
  | [], _ => none
  | (k0, v0) :: rest, k => if k0 = k then some v0 else lookupField rest k

/-- The `ScanData` request body (server.py lines 141-149). -/
structure ScanData where
  imageUri : String
  imageBase64 : String
  skinToneR : Int
  skinToneG : Int
  skinToneB : Int
  timestamp : String
  analysisType : String
  acne : Option String
  pigmentation : Option String
  wrinkles : Option String
deriving DecidableEq

/-- `scan.dict()`: the pydantic field order of `ScanData`. -/
def ScanData.toDict (scan : ScanData) : ScanDict :=
  [("imageUri", .str scan.imageUri),
   ("imageBase64", .str scan.imageBase64),
   ("skinTone", .tone scan.skinToneR scan.skinToneG scan.skinToneB),
   ("timestamp", .str scan.timestamp),
   ("analysisType", .str scan.analysisType),
   ("acne", .blob scan.acne),
   ("pigmentation", .blob scan.pigmentation),
   ("wrinkles", .blob scan.wrinkles)]

/-- One stored image artifact: its category directory, filename, and (opaque)
payload. `UPLOAD_DIR` is `ROOT_DIR/uploads`, so the served URL is
`/uploads/<dir>/<name>` and the stored `imagePath` is the same path. -/
structure Artifact where
  dir : String
  name : String
  payload : String
deriving DecidableEq

/-- The on-disk path recorded as `imagePath`. -/
def Artifact.diskPath (a : Artifact) : String :=
  "uploads/" ++ a.dir ++ "/" ++ a.name

/-- The served URL recorded as `imageUri`. -/
def Artifact.url (a : Artifact) : String :=
  "/uploads/" ++ a.dir ++ "/" ++ a.name

/-- The external persistent state: upload directory plus the `scans`
collection (insertion id with the stored dictionary). -/
structure Store where
  artifacts : List Artifact
  records : List (String × ScanDict)
deriving DecidableEq

/-- Outcome of one `db.scans.insert_one` round-trip: the generated id, or the
`str(e)` of the raised exception. -/
inductive InsertOutcome
  | success (id : String)
  | failure (msg : String)
deriving DecidableEq

/-- `create_scan`'s transient-failure classifier (server.py line 243):
`"SSL" in s or "TLS" in s or "handshake" in s.lower()`. -/
def is_ssl_error (msg : String) : Bool :=
  containsStr "SSL" msg || containsStr "TLS" msg ||
    containsLit "handshake".data (lowerList msg.data)

/-- Whether an attempt outcome is classified transient by `create_scan`. -/
def InsertOutcome.isTransient : InsertOutcome → Bool
  | .success _ => false
  | .failure msg => is_ssl_error msg

/-- The scan dictionary as stored: storage category substituted, `imageUri`
and `imagePath` pointing at the artifact, raw base64 payload removed
(server.py lines 229-236). -/
def builtDict (scan : ScanData) (storageType url path : String) : ScanDict :=
  popField
    (setField
      (setField
        (setField scan.toDict "analysisType" (.str storageType))
        "imageUri" (.str url))
      "imagePath" (.str path))
    "imageBase64"

/-- The artifact written by `_save_image_to_disk` for one attempt (server.py
lines 183-195): the file goes into the category directory under the generated
`stem` plus sniffed extension, holding the decoded payload. -/
def attemptArtifact (scan : ScanData) (stem storageType : String) : Artifact :=
  { dir := storageType
    name := stem ++ _get_image_extension scan.imageBase64
    payload := _strip_data_url scan.imageBase64 }

/-- The `try` body of one `create_scan` attempt (server.py lines 228-240):
resolve the storage category (whose 400 `HTTPException` propagates into the
`except` as the string `"400: <detail>"`), write the image artifact, build
the lean metadata dict, then insert. Returns the response-or-exception and
the updated store. -/
def attemptBody (scan : ScanData) (stem : String) (outcome : InsertOutcome)
    (store : Store) : Except String (String × String) × Store :=
  match _resolve_storage_type scan.analysisType with
  | .error detail => (.error ("400: " ++ detail), store)
  | .ok storageType =>
    match outcome with
    | .success id =>
      (.ok (id, "Scan saved successfully"),
        { artifacts := attemptArtifact scan stem storageType :: store.artifacts
          records :=
            (id, builtDict scan storageType (attemptArtifact scan stem storageType).url
              (attemptArtifact scan stem storageType).diskPath) :: store.records })
    | .failure msg =>
      (.error msg,
        { store with artifacts := attemptArtifact scan stem storageType :: store.artifacts })

/-- An HTTP error response (FastAPI `HTTPException`). -/
structure HttpError where
  status : Nat
  detail : String
deriving DecidableEq

instance {e a : Type} [DecidableEq e] [DecidableEq a] : DecidableEq (Except e a) :=
  fun x y =>
    match x, y with
    | .ok u, .ok v => if h : u = v then .isTrue (by rw [h]) else .isFalse (by simp [h])
    | .error u, .error v => if h : u = v then .isTrue (by rw [h]) else .isFalse (by simp [h])
    | .ok _, .error _ => .isFalse (by simp)
    | .error _, .ok _ => .isFalse (by simp)

/-- The outcome of a whole `create_scan` call: the response, the resulting
store, the backoff sleeps performed (seconds, in order), and how many
attempts ran. -/
structure CreateScanRun where
  response : Except HttpError (String × String)
  store : Store
  sleeps : List Nat
  attemptsMade : Nat
deriving DecidableEq

/-- `max_retries = 3` (server.py line 224). -/
def max_retries : Nat := 3

/-- The `for attempt in range(max_retries)` loop of `create_scan` (server.py
lines 227-254), with `fuel` the number of loop iterations left. On an
exception classified transient while `attempt < max_retries - 1`, sleep the
current delay, double it, and continue; otherwise answer a 500 wrapping the
exception text. -/
def create_scan_loop (scan : ScanData) (stems : Nat → String)
    (env : Nat → InsertOutcome) :
    Nat → Nat → Nat → List Nat → Store → CreateScanRun
  | 0, attempt, _, sleeps, store =>
    { response := .error { status := 500, detail := "loop exhausted" }
      store := store, sleeps := sleeps.reverse, attemptsMade := attempt }
  | fuel + 1, attempt, delay, sleeps, store =>
    match attemptBody scan (stems attempt) (env attempt) store with
    | (.ok resp, store1) =>
      { response := .ok resp, store := store1
        sleeps := sleeps.reverse, attemptsMade := attempt + 1 }
    | (.error msg, store1) =>
      if attempt < max_retries - 1 && is_ssl_error msg then
        create_scan_loop scan stems env fuel (attempt + 1) (delay * 2)
          (delay :: sleeps) store1
      else
        { response := .error { status := 500, detail := "Failed to save scan: " ++ msg }
          store := store1, sleeps := sleeps.reverse, attemptsMade := attempt + 1 }

/-- `create_scan` (server.py lines 218-254): run the retry loop with
`max_retries` iterations, starting at attempt 0 with a 1-second delay. -/
def create_scan (scan : ScanData) (stems : Nat → String) (env : Nat → InsertOutcome)
    (store : Store) : CreateScanRun :=
  create_scan_loop scan stems env max_retries 0 1 [] store

/-- `bson.ObjectId.is_valid` for strings: exactly 24 hex characters
(external library, modeled by its documented behaviour). -/
def objectIdValid (s : String) : Bool :=
  s.data.length = 24 &&
    s.data.all fun c => c.isDigit || ('a' ≤ c && c ≤ 'f') || ('A' ≤ c && c ≤ 'F')

/-- `get_scan` (server.py lines 271-290): 400 on a malformed id, 404 when
absent, otherwise the stored record. Read-only: takes the store, returns no
store. -/
def get_scan (store : Store) (scan_id : String) : Except HttpError ScanDict :=
  if objectIdValid scan_id then
    match store.records.lookup scan_id with
    | some d => .ok d
    | none => .error { status := 404, detail := "Scan not found" }
  else .error { status := 400, detail := "Invalid scan ID" }

/-- The `timestamp` field used by the Mongo sort in `get_scans`. -/
def timestampOf (d : ScanDict) : String :=
  match lookupField d "timestamp" with
  | some (.str t) => t
  | _ => ""

/-- Insertion into a list sorted by descending timestamp. -/
def insertByTimestampDesc (r : String × ScanDict) :
    List (String × ScanDict) → List (String × ScanDict)
  | [] => [r]
  | x :: xs =>
    if timestampOf x.2 ≤ timestampOf r.2 then r :: x :: xs
    else x :: insertByTimestampDesc r xs

/-- `db.scans.find().sort("timestamp", -1)`. -/
def sortByTimestampDesc : List (String × ScanDict) → List (String × ScanDict)
  | [] => []
  | x :: xs => insertByTimestampDesc x (sortByTimestampDesc xs)

/-- `get_scans` (server.py lines 256-269): descending-timestamp window.
Read-only. -/
def get_scans (store : Store) (limit skip : Nat) : List (String × ScanDict) :=
  ((sortByTimestampDesc store.records).drop skip).take limit

/-- `delete_scan` (server.py lines 292-323): 400 on a malformed id, 404 when
absent; otherwise best-effort removal of the artifact at the record's
`imagePath`, then removal of the metadata record. -/
def delete_scan (store : Store) (scan_id : String) :
    Except HttpError String × Store :=
  if objectIdValid scan_id then
    match store.records.lookup scan_id with
    | none => (.error { status := 404, detail := "Scan not found" }, store)
    | some d =>
      let store1 : Store :=
        match lookupField d "imagePath" with
        | some (.str p) =>
          { store with artifacts := store.artifacts.filter fun a => a.diskPath ≠ p }
        | _ => store
      (.ok "Scan deleted successfully",
        { store1 with records := store1.records.filter fun r => r.1 ≠ scan_id })
  else (.error { status := 400, detail := "Invalid scan ID" }, store)

/-- Per-category record count, as in `get_scan_statistics` (server.py
lines 325-350). Read-only. -/
def countByType (store : Store) (t : String) : Nat :=
  (store.records.filter fun r => lookupField r.2 "analysisType" = some (.str t)).length

/-- `get_scan_statistics`: total plus the fixed category buckets. -/
def get_scan_statistics (store : Store) : Nat × List (String × Nat) :=
  (store.records.length,
    [("acne", countByType store "acne"),
     ("pigmentation", countByType store "pigmentation"),
     ("pimple", countByType store "pimple"),
     ("wrinkles", countByType store "wrinkles")])

/-! ### Claims C4, C3, C2: storage resolution and retry-safe persistence -/

/-- Claim C4: after trimming and lowercasing, `full` is rejected with the
unsupported-category error, `pigmentation` maps to `pimple`, the three storage
categories pass through unchanged, and every other value defaults to `acne`
without erroring. -/
theorem resolve_storage_type_spec (s : String) :
    (stripChars (lowerList s.data) = "full".data →
      _resolve_storage_type s = .error "Full scan is no longer supported") ∧
    (stripChars (lowerList s.data) = "pigmentation".data →
      _resolve_storage_type s = .ok "pimple") ∧
    (stripChars (lowerList s.data) = "acne".data ∨
     stripChars (lowerList s.data) = "wrinkles".data ∨
     stripChars (lowerList s.data) = "pimple".data →
      _resolve_storage_type s = .ok (String.mk (stripChars (lowerList s.data)))) ∧
    (stripChars (lowerList s.data) ≠ "full".data →
     stripChars (lowerList s.data) ≠ "pigmentation".data →
     stripChars (lowerList s.data) ≠ "acne".data →
     stripChars (lowerList s.data) ≠ "wrinkles".data →
     stripChars (lowerList s.data) ≠ "pimple".data →
      _resolve_storage_type s = .ok "acne") := by
  refine ⟨fun h => ?_, fun h => ?_, fun h => ?_, fun h1 h2 h3 h4 h5 => ?_⟩
  · simp [_resolve_storage_type, h]
  · simp [_resolve_storage_type, h]
  · rcases h with h | h | h <;> simp [_resolve_storage_type, h]
  · simp [_resolve_storage_type, h1, h2, h3, h4, h5]

/-- Claim C4 witness: the spec's own sample inputs. -/
theorem resolve_storage_type_witness :
    _resolve_storage_type " PIGMENTATION " = .ok "pimple" ∧
    _resolve_storage_type "anything-else" = .ok "acne" :=
  ⟨(resolve_storage_type_spec " PIGMENTATION ").2.1 (by decide),
   (resolve_storage_type_spec "anything-else").2.2.2
     (by decide) (by decide) (by decide) (by decide) (by decide)⟩

/-- Claim C3 (code-bug evaluation): a `POST /scans` whose category is `full`
does fail before touching storage — the store is returned unchanged, no
artifact is written, no record inserted, after exactly one attempt and no
sleeps — but the response is a 500 SERVER error wrapping the resolver's 400
detail, because `create_scan`'s blanket `except Exception` catches the
resolver's `HTTPException(400)` (whose `str` is
`400: Full scan is no longer supported`, not transient-classified) and
re-raises it as `HTTPException(500, "Failed to save scan: ...")`; unlike the
other routes, `create_scan` has no `except HTTPException: raise` guard. -/
theorem create_scan_full_returns_500 (stems : Nat → String) (env : Nat → InsertOutcome)
    (store : Store) :
    create_scan
      { imageUri := "file:///tmp/full.jpg", imageBase64 := "data:image/jpeg;base64,QUFB"
        skinToneR := 1, skinToneG := 2, skinToneB := 3
        timestamp := "2025-01-01T00:00:00", analysisType := "full"
        acne := none, pigmentation := none, wrinkles := none } stems env store =
      { response :=
          .error
            { status := 500
              detail := "Failed to save scan: 400: Full scan is no longer supported" }
        store := store
        sleeps := []
        attemptsMade := 1 } := rfl

/-- A well-formed scan submission used for concrete instantiations. -/
def sampleScan : ScanData :=
  { imageUri := "file:///tmp/a.jpg", imageBase64 := "data:image/png;base64,QUFB"
    skinToneR := 200, skinToneG := 150, skinToneB := 130
    timestamp := "2024-12-01T14:30:22", analysisType := "acne"
    acne := some "acne-block", pigmentation := none, wrinkles := none }

/-- Claim C2, counterexample: under 3 consecutive TLS/handshake-classified
failures followed by success, `create_scan` does NOT succeed on a 4th
attempt: the cap is `max_retries = 3` attempts total, so the call surfaces
the 500 error after 3 attempts, having slept only 1s and 2s. -/
theorem save_retry_fourth_attempt_cex :
    (create_scan sampleScan (fun _ => "stem")
        (fun k => if k < 3 then .failure "SSL handshake failed" else .success "id1")
        { artifacts := [], records := [] }).response =
      .error { status := 500, detail := "Failed to save scan: SSL handshake failed" } ∧
    (create_scan sampleScan (fun _ => "stem")
        (fun k => if k < 3 then .failure "SSL handshake failed" else .success "id1")
        { artifacts := [], records := [] }).attemptsMade = 3 ∧
    (create_scan sampleScan (fun _ => "stem")
        (fun k => if k < 3 then .failure "SSL handshake failed" else .success "id1")
        { artifacts := [], records := [] }).sleeps = [1, 2] := by
  decide

/-- One unfolding step of the retry loop. -/
lemma create_scan_loop_step (scan : ScanData) (stems : Nat → String)
    (env : Nat → InsertOutcome) (fuel attempt delay : Nat) (sleeps : List Nat)
    (store : Store) :
    create_scan_loop scan stems env (fuel + 1) attempt delay sleeps store =
      match attemptBody scan (stems attempt) (env attempt) store with
      | (.ok resp, store1) =>
        { response := .ok resp, store := store1
          sleeps := sleeps.reverse, attemptsMade := attempt + 1 }
      | (.error msg, store1) =>
        if attempt < max_retries - 1 && is_ssl_error msg then
          create_scan_loop scan stems env fuel (attempt + 1) (delay * 2)
            (delay :: sleeps) store1
        else
          { response := .error { status := 500, detail := "Failed to save scan: " ++ msg }
            store := store1, sleeps := sleeps.reverse, attemptsMade := attempt + 1 } := rfl

/-- A transiently-failing attempt leaves an error and some updated store. -/
lemma attemptBody_failure (scan : ScanData) (stem msg : String) (store : Store)
    (st : String) (hres : _resolve_storage_type scan.analysisType = .ok st) :
    ∃ store1, attemptBody scan stem (.failure msg) store = (.error msg, store1) := by
  simp [attemptBody, hres]

/-- A successful attempt answers the id and success message. -/
lemma attemptBody_success (scan : ScanData) (stem id : String) (store : Store)
    (st : String) (hres : _resolve_storage_type scan.analysisType = .ok st) :
    ∃ store1, attemptBody scan stem (.success id) store =
      (.ok (id, "Scan saved successfully"), store1) := by
  simp [attemptBody, hres]

/-- The loop makes at most `attempt + fuel` attempts in total. -/
lemma create_scan_loop_attempts_le (scan : ScanData) (stems : Nat → String)
    (env : Nat → InsertOutcome) :
    ∀ (fuel attempt delay : Nat) (sleeps : List Nat) (store : Store),
      (create_scan_loop scan stems env fuel attempt delay sleeps store).attemptsMade ≤
        attempt + fuel := by
  intro fuel
  induction fuel with
  | zero => intro attempt delay sleeps store; simp [create_scan_loop]
  | succ n ih =>
    intro attempt delay sleeps store
    rcases hb : attemptBody scan (stems attempt) (env attempt) store with ⟨res, store1⟩
    rw [create_scan_loop_step scan stems env n attempt delay sleeps store, hb]
    cases res with
    | ok resp => simp
    | error msg =>
      simp only
      split
      · have := ih (attempt + 1) (delay * 2) (delay :: sleeps) store1
        omega
      · simp

/-- Claim C2, amended: transient (TLS/handshake-classified) failures are
retried with exponential backoff, but the fixed cap is 3 attempts in total:
2 consecutive transient failures followed by a success make `create_scan`
succeed on the 3rd internal attempt with backoff sleeps of 1s and 2s, and no
call ever makes more than `max_retries = 3` attempts. -/
theorem save_retry_spec :
    (∀ (scan : ScanData) (stems : Nat → String) (env : Nat → InsertOutcome)
        (store : Store) (st id : String),
      _resolve_storage_type scan.analysisType = .ok st →
      (env 0).isTransient = true → (env 1).isTransient = true →
      env 2 = .success id →
      (create_scan scan stems env store).response = .ok (id, "Scan saved successfully") ∧
      (create_scan scan stems env store).attemptsMade = 3 ∧
      (create_scan scan stems env store).sleeps = [1, 2]) ∧
    (∀ (scan : ScanData) (stems : Nat → String) (env : Nat → InsertOutcome)
        (store : Store),
      (create_scan scan stems env store).attemptsMade ≤ max_retries) := by
  constructor
  · intro scan stems env store st id hres h0 h1 h2
    cases e0 : env 0 with
    | success id0 => rw [e0] at h0; simp [InsertOutcome.isTransient] at h0
    | failure msg0 =>
    rw [e0] at h0; simp only [InsertOutcome.isTransient] at h0
    cases e1 : env 1 with
    | success id1 => rw [e1] at h1; simp [InsertOutcome.isTransient] at h1
    | failure msg1 =>
    rw [e1] at h1; simp only [InsertOutcome.isTransient] at h1
    obtain ⟨s1, hb0⟩ := attemptBody_failure scan (stems 0) msg0 store st hres
    obtain ⟨s2, hb1⟩ := attemptBody_failure scan (stems 1) msg1 s1 st hres
    obtain ⟨s3, hb2⟩ := attemptBody_success scan (stems 2) id s2 st hres
    have key : create_scan scan stems env store =
        { response := .ok (id, "Scan saved successfully"), store := s3
          sleeps := [1, 2], attemptsMade := 3 } := by
      change create_scan_loop scan stems env (2 + 1) 0 1 [] store = _
      rw [create_scan_loop_step scan stems env 2 0 1 [] store, e0, hb0]
      simp only [h0, max_retries]
      norm_num
      change create_scan_loop scan stems env (1 + 1) 1 2 [1] s1 = _
      rw [create_scan_loop_step scan stems env 1 1 2 [1] s1, e1, hb1]
      simp only [h1, max_retries]
      norm_num
      change create_scan_loop scan stems env (0 + 1) 2 4 [2, 1] s2 = _
      rw [create_scan_loop_step scan stems env 0 2 4 [2, 1] s2, h2, hb2]
      rfl
    rw [key]
    exact ⟨rfl, rfl, rfl⟩
  · intro scan stems env store
    have := create_scan_loop_attempts_le scan stems env max_retries 0 1 [] store
    simpa [create_scan] using this

/-- Claim C2 witness: two TLS failures then success, on a concrete scan. -/
theorem save_retry_spec_witness :
    (create_scan sampleScan (fun _ => "stem")
        (fun k => if k < 2 then .failure "TLS error" else .success "id9")
        { artifacts := [], records := [] }).response =
      .ok ("id9", "Scan saved successfully") :=
  (save_retry_spec.1 sampleScan (fun _ => "stem")
    (fun k => if k < 2 then .failure "TLS error" else .success "id9")
    { artifacts := [], records := [] } "acne" "id9"
    (by decide) (by decide) (by decide) (by decide)).1


/-! ### Claim C8: persisted records never contain raw image bytes -/

/-- Removing a key makes it unreadable. -/
lemma lookupField_popField_self (d : ScanDict) (k : String) :
    lookupField (popField d k) k = none := by
  induction d with
  | nil => rfl
  | cons kv rest ih =>
    obtain ⟨k0, v0⟩ := kv
    by_cases h : k0 = k <;> simp [popField, lookupField, h, ih]

/-- Removing one key leaves the others unchanged. -/
lemma lookupField_popField_ne (d : ScanDict) (k k2 : String) (h : k ≠ k2) :
    lookupField (popField d k) k2 = lookupField d k2 := by
  induction d with
  | nil => rfl
  | cons kv rest ih =>
    obtain ⟨k0, v0⟩ := kv
    by_cases h0 : k0 = k
    · subst h0; simp [popField, lookupField, h, ih]
    · by_cases h2 : k0 = k2
      · subst h2; simp [popField, lookupField, h0]
      · simp [popField, lookupField, h0, h2, ih]

/-- Assignment makes the key readable with the new value. -/
lemma lookupField_setField_self (d : ScanDict) (k : String) (v : FieldVal) :
    lookupField (setField d k v) k = some v := by
  induction d with
  | nil => simp [setField, lookupField]
  | cons kv rest ih =>
    obtain ⟨k0, v0⟩ := kv
    by_cases h : k0 = k <;> simp [setField, lookupField, h, ih]

/-- Assignment leaves the other keys unchanged. -/
lemma lookupField_setField_ne (d : ScanDict) (k : String) (v : FieldVal) (k2 : String)
    (h : k ≠ k2) :
    lookupField (setField d k v) k2 = lookupField d k2 := by
  induction d with
  | nil => simp [setField, lookupField, h]
  | cons kv rest ih =>
    obtain ⟨k0, v0⟩ := kv
    by_cases h0 : k0 = k
    · subst h0; simp [setField, lookupField, h]
    · by_cases h2 : k0 = k2
      · subst h2; simp [setField, lookupField, h0]
      · simp [setField, lookupField, h0, h2, ih]

/-- The stored dictionary has no `imageBase64` key. -/
lemma builtDict_no_base64 (scan : ScanData) (st url path : String) :
    lookupField (builtDict scan st url path) "imageBase64" = none :=
  lookupField_popField_self _ _

/-- The stored dictionary's `imageUri` is the artifact URL it was built
with. -/
lemma builtDict_imageUri (scan : ScanData) (st url path : String) :
    lookupField (builtDict scan st url path) "imageUri" = some (.str url) := by
  unfold builtDict
  rw [lookupField_popField_ne _ _ _ (by decide),
    lookupField_setField_ne _ _ _ _ (by decide),
    lookupField_setField_self]

/-- One attempt only ever adds artifacts. -/
lemma attemptBody_artifacts_mono (scan : ScanData) (stem : String)
    (outcome : InsertOutcome) (store : Store) :
    ∀ a ∈ store.artifacts, a ∈ (attemptBody scan stem outcome store).2.artifacts := by
  intro a ha
  unfold attemptBody
  cases hres : _resolve_storage_type scan.analysisType with
  | error d => simpa using ha
  | ok st =>
    cases outcome with
    | success id => simp only; exact List.mem_cons_of_mem _ ha
    | failure msg => simp only; exact List.mem_cons_of_mem _ ha

/-- Every record present after one attempt either predates the attempt or is
the freshly built dictionary: free of raw bytes and pointing its `imageUri`
at an artifact present after the attempt. -/
lemma attemptBody_records (scan : ScanData) (stem : String)
    (outcome : InsertOutcome) (store : Store) :
    ∀ r ∈ (attemptBody scan stem outcome store).2.records,
      r ∈ store.records ∨
      (lookupField r.2 "imageBase64" = none ∧
       ∃ a ∈ (attemptBody scan stem outcome store).2.artifacts,
         lookupField r.2 "imageUri" = some (.str a.url)) := by
  intro r hr
  unfold attemptBody at hr ⊢
  cases hres : _resolve_storage_type scan.analysisType with
  | error d =>
    rw [hres] at hr
    exact .inl hr
  | ok st =>
    rw [hres] at hr
    cases outcome with
    | success id =>
      rcases List.mem_cons.mp hr with h | h
      · subst h
        exact .inr ⟨builtDict_no_base64 .., _, List.mem_cons_self _ _, builtDict_imageUri ..⟩
      · exact .inl h
    | failure msg => exact .inl hr

/-- Artifacts only accumulate through the retry loop. -/
lemma create_scan_loop_artifacts_mono (scan : ScanData) (stems : Nat → String)
    (env : Nat → InsertOutcome) :
    ∀ (fuel attempt delay : Nat) (sleeps : List Nat) (store : Store),
      ∀ a ∈ store.artifacts,
        a ∈ (create_scan_loop scan stems env fuel attempt delay sleeps
              store).store.artifacts := by
  intro fuel
  induction fuel with
  | zero => intro attempt delay sleeps store a ha; simpa [create_scan_loop] using ha
  | succ n ih =>
    intro attempt delay sleeps store a ha
    rcases hb : attemptBody scan (stems attempt) (env attempt) store with ⟨res, store1⟩
    have ha1 : a ∈ store1.artifacts := by
      have h := attemptBody_artifacts_mono scan (stems attempt) (env attempt) store a ha
      rw [hb] at h; exact h
    rw [create_scan_loop_step scan stems env n attempt delay sleeps store, hb]
    cases res with
    | ok resp => simpa using ha1
    | error msg =>
      simp only
      split
      · exact ih (attempt + 1) (delay * 2) (delay :: sleeps) store1 a ha1
      · simpa using ha1

/-- Every record present after the retry loop either predates the call or is
a freshly built dictionary with no raw bytes, whose `imageUri` is the URL of
an artifact present after the call. -/
lemma create_scan_loop_records (scan : ScanData) (stems : Nat → String)
    (env : Nat → InsertOutcome) :
    ∀ (fuel attempt delay : Nat) (sleeps : List Nat) (store : Store),
      ∀ r ∈ (create_scan_loop scan stems env fuel attempt delay sleeps
              store).store.records,
        r ∈ store.records ∨
        (lookupField r.2 "imageBase64" = none ∧
         ∃ a ∈ (create_scan_loop scan stems env fuel attempt delay sleeps
                store).store.artifacts,
           lookupField r.2 "imageUri" = some (.str a.url)) := by
  intro fuel
  induction fuel with
  | zero =>
    intro attempt delay sleeps store r hr
    simp only [create_scan_loop] at hr ⊢
    exact .inl hr
  | succ n ih =>
    intro attempt delay sleeps store r hr
    rcases hb : attemptBody scan (stems attempt) (env attempt) store with ⟨res, store1⟩
    rw [create_scan_loop_step scan stems env n attempt delay sleeps store, hb] at hr ⊢
    have hbody := attemptBody_records scan (stems attempt) (env attempt) store
    rw [hb] at hbody
    cases res with
    | ok resp =>
      exact hbody r hr
    | error msg =>
      simp only at hr ⊢
      by_cases hc : (decide (attempt < max_retries - 1) && is_ssl_error msg) = true
      case neg =>
        rw [if_neg hc] at hr ⊢
        exact hbody r hr
      case pos =>
        rw [if_pos hc] at hr ⊢
        rcases ih (attempt + 1) (delay * 2) (delay :: sleeps) store1 r hr with
          h | ⟨hclean, a, hain, hauri⟩
        · rcases hbody r h with h2 | ⟨hclean, a, hain, hauri⟩
          · exact .inl h2
          · exact .inr ⟨hclean, a,
              create_scan_loop_artifacts_mono scan stems env n (attempt + 1)
                (delay * 2) (delay :: sleeps) store1 a hain, hauri⟩
        · exact .inr ⟨hclean, a, hain, hauri⟩

/-- Claim C8: every record that `create_scan` adds to the store has the
`imageBase64` field removed and its `imageUri` replaced by the URL of an
artifact written to the upload directory; `delete_scan` only ever removes
records. (`get_scan`, `get_scans` and `get_scan_statistics` take the store
and return plain values, so by type they cannot write to it.) -/
theorem persisted_no_raw_bytes :
    (∀ (scan : ScanData) (stems : Nat → String) (env : Nat → InsertOutcome)
        (store : Store),
      ∀ r ∈ (create_scan scan stems env store).store.records,
        r ∈ store.records ∨
        (lookupField r.2 "imageBase64" = none ∧
         ∃ a ∈ (create_scan scan stems env store).store.artifacts,
           lookupField r.2 "imageUri" = some (.str a.url))) ∧
    (∀ (store : Store) (scan_id : String),
      ∀ r ∈ (delete_scan store scan_id).2.records, r ∈ store.records) := by
  constructor
  · intro scan stems env store r hr
    exact create_scan_loop_records scan stems env max_retries 0 1 [] store r hr
  · intro store scan_id r hr
    unfold delete_scan at hr
    by_cases hv : objectIdValid scan_id
    · rw [if_pos hv] at hr
      cases hl : store.records.lookup scan_id with
      | none => rw [hl] at hr; exact hr
      | some d =>
        rw [hl] at hr
        cases hp : lookupField d "imagePath" with
        | none => simp only [hp] at hr; exact List.mem_of_mem_filter hr
        | some v =>
          cases v with
          | str p => simp only [hp] at hr; exact List.mem_of_mem_filter hr
          | tone x y z => simp only [hp] at hr; exact List.mem_of_mem_filter hr
          | blob o => simp only [hp] at hr; exact List.mem_of_mem_filter hr
    · rw [if_neg hv] at hr; exact hr

/-- Claim C8 witness: a concrete successful save into an empty store. -/
theorem persisted_no_raw_bytes_witness :
    ("id1", builtDict sampleScan "acne" "/uploads/acne/stem.png" "uploads/acne/stem.png") ∈
        (Store.mk [] []).records ∨
    (lookupField (builtDict sampleScan "acne" "/uploads/acne/stem.png"
        "uploads/acne/stem.png") "imageBase64" = none ∧
     ∃ a ∈ (create_scan sampleScan (fun _ => "stem") (fun _ => .success "id1")
        (Store.mk [] [])).store.artifacts,
       lookupField (builtDict sampleScan "acne" "/uploads/acne/stem.png"
        "uploads/acne/stem.png") "imageUri" = some (.str a.url)) :=
  persisted_no_raw_bytes.1 sampleScan (fun _ => "stem") (fun _ => .success "id1")
    (Store.mk [] []) _ (by decide)
